import Mathlib

/-!
Verification of the natural-language specification of scripts/scrape.py, a
CLI wrapper that translates arguments and JSON strings into calls against the
crawl4ai crawling library and serializes normalized results back to JSON.

Shallow embedding: the pure parts of the script (URL validation, result
normalization, argument dispatch, error-to-JSON formatting) are translated
directly from the source.  The external collaborators (json.loads, the
crawl4ai library calls, the asyncio scheduler) are modelled as explicit
environment values: a library call site receives the list of per-task
outcomes from the environment, where an outcome is either a result object or
an exception message, and the attribute probing done by the script
(hasattr/getattr with fallbacks) is modelled with Option fields on the
result-object structures.
-/

/-- JSON values, as produced by json.loads and consumed by json.dumps.
Object fields keep insertion order, matching Python dict semantics. -/
inductive Json where
  | null : Json
  | bool : Bool → Json
  | num : Int → Json
  | str : String → Json
  | arr : List Json → Json
  | obj : List (String × Json) → Json

/-- Field lookup on a JSON object value (None on other values). -/
def Json.lookupField : Json → String → Option Json
  | .obj fs, k => fs.lookup k
  | _, _ => none

/-- Python truthiness of a JSON value. -/
def jsonTruthy : Json → Bool
  | .null => false
  | .bool b => b
  | .num n => n != 0
  | .str s => s != ""
  | .arr xs => !xs.isEmpty
  | .obj fs => !fs.isEmpty

/-- Python str() of a JSON value as used by f-string interpolation.  Exact
for strings (the only case a claim exercises); approximate renderings for
the other value kinds, which can only appear on the AttributeError path. -/
def jsonFStr : Json → String
  | .str s => s
  | .null => "None"
  | .bool true => "True"
  | .bool false => "False"
  | .num n => toString n
  | .arr _ => "[...]"
  | .obj _ => "\x7b...\x7d"

/-- Python type name of a JSON value, for AttributeError messages. -/
def jsonTypeName : Json → String
  | .null => "NoneType"
  | .bool _ => "bool"
  | .num _ => "int"
  | .str _ => "str"
  | .arr _ => "list"
  | .obj _ => "dict"

/-- The flat Result shape every normalizer in scrape.py produces: the seven
keys of the dict literals at lines 99-107, 124-133, 143-151, 158-166,
172-181 and 241-249 of scripts/scrape.py. -/
structure Result where
  success : Bool
  markdown : String
  url : String
  status_code : Int
  title : String
  content_length : Nat
  error : Option String
deriving DecidableEq

/-- json.dumps of one Result dict (key order is the dict literal order,
identical in every branch of scrape.py). -/
def resultToJson (r : Result) : Json :=
  Json.obj [("success", Json.bool r.success), ("markdown", Json.str r.markdown),
    ("url", Json.str r.url), ("status_code", Json.num r.status_code),
    ("title", Json.str r.title), ("content_length", Json.num (r.content_length : Int)),
    ("error", match r.error with | some s => Json.str s | none => Json.null)]

/-- Whitespace stripped by Python str.strip with no argument (ASCII part;
claims only exercise these characters). -/
def isPyWs (c : Char) : Bool :=
  c = ' ' || c = '\t' || c = '\n' || c = '\r' || c = '\x0b' || c = '\x0c'

/-- str.strip on the character list: drop whitespace from both ends. -/
def pyStripList (l : List Char) : List Char :=
  ((l.dropWhile isPyWs).reverse.dropWhile isPyWs).reverse

/-- Python url.strip() used at scrape.py line 353. -/
def pyStrip (s : String) : String := String.mk (pyStripList s.data)

/-- Python s.startswith(pre). -/
def strStartsWith (s pre : String) : Bool := pre.data.isPrefixOf s.data

/-- Python membership test of a single character in a string. -/
def strHasChar (s : String) (c : Char) : Bool := s.data.contains c

/-- Substring test, for checking what an error message mentions. -/
def subListAt : List Char → List Char → Bool
  | pat, [] => pat.isEmpty
  | pat, c :: rest => pat.isPrefixOf (c :: rest) || subListAt pat rest

/-- Whether the string pat occurs as a contiguous substring of s. -/
def strMentions (s pat : String) : Bool := subListAt pat.data s.data

/-- validate_url (scrape.py lines 262-274): returns (is_valid, error_msg). -/
def validate_url (url : String) : Bool × String :=
  if url.data.isEmpty then (false, "URL cannot be empty")
  else if !(strStartsWith url "http://" || strStartsWith url "https://") then
    (false, "URL must start with http:// or https://")
  else if !(strHasChar url '.' && decide (10 < url.data.length)) then
    (false, "URL appears to be malformed")
  else (true, "")

/-- Response object of AsyncHTTPCrawlerStrategy.crawl as seen through the
attribute probing at scrape.py lines 100-106 and 126-132: a field is none
when the attribute is absent (for error_message: absent or None, the two
cases getattr with default None conflates). -/
structure HttpResultObj where
  success : Option Bool
  html : Option String
  markdown : Option String
  status_code : Option Int
  title : Option String
  error_message : Option String
deriving DecidableEq

/-- What one iteration of the HTTP streaming loop (scrape.py lines 96-118)
receives.  asyncio.as_completed yields wrapper coroutines that are not
elements of the tasks list, so in the formatted-result branch the url key
expression urls[tasks.index(task)] at line 102 always raises ValueError
before the dict literal completes: the lines 99-107 dict is never emitted
by the real program.  awaitExc m: await task itself raised, with str(e)
equal to m; indexExc r m: await returned the response object r (whose
success and markdown key expressions evaluate first, without effect), and
tasks.index(task) then raised ValueError with str(e) equal to m (that
message embeds the runtime repr of the coroutine, hence it is supplied by
the environment). -/
inductive StreamOutcome where
  | awaitExc : String → StreamOutcome
  | indexExc : HttpResultObj → String → StreamOutcome

/-- The str of the exception that reaches the except clause at line 109. -/
def streamExcMsg : StreamOutcome → String
  | .awaitExc m => m
  | .indexExc _ m => m

/-- One iteration of the HTTP streaming loop: every iteration lands in the
except clause at lines 109-118, producing the failure Result for slot i
(the enumerate counter, completion order). -/
def httpStreamStep (urls : List String) (i : Nat) (o : StreamOutcome) : Result :=
  { success := false, markdown := "", url := urls.getD i "",
    status_code := 0, title := "", content_length := 0,
    error := some ("HTTP strategy error: " ++ streamExcMsg o) }

/-- The streaming loop, accumulating one Result per completed task, with i
counting up from the given start value. -/
def httpStreamResultsAux (urls : List String) :
    Nat → List StreamOutcome → List Result
  | _, [] => []
  | i, o :: os => httpStreamStep urls i o :: httpStreamResultsAux urls (i + 1) os

/-- HTTP stream mode (scrape.py lines 92-119): enumerate starts at 0. -/
def httpStreamResults (urls : List String) (os : List StreamOutcome) : List Result :=
  httpStreamResultsAux urls 0 os

/-- One element of the HTTP gather comprehension (scrape.py lines 124-133).
With return_exceptions=True the gathered value is either a response object
or the exception itself, whose str() is the message m. -/
def httpGatherItem (o : Except String HttpResultObj) (url : String) : Result :=
  match o with
  | .ok r =>
    { success := r.success.getD true
      markdown := r.html.getD ""
      url := url
      status_code := r.status_code.getD 200
      title := r.title.getD ""
      content_length := match r.html with | some h => h.length | none => 0
      error := r.error_message }
  | .error m =>
    { success := false, markdown := "", url := url, status_code := 0,
      title := "", content_length := 0, error := some m }

/-- HTTP batch (collect-all) mode (scrape.py lines 121-135):
zip(http_results, urls) paired elementwise. -/
def httpGatherResults (urls : List String) (os : List (Except String HttpResultObj)) :
    List Result :=
  (os.zip urls).map (fun p => httpGatherItem p.1 p.2)

/-- The markdown attribute of a browser CrawlResult, an object carrying
raw_markdown. -/
structure MarkdownObj where
  raw_markdown : String
deriving DecidableEq

/-- Browser-strategy CrawlResult as accessed at scrape.py lines 143-151 and
158-166.  markdown = none models the attribute being None, in which case
result.markdown.raw_markdown raises AttributeError. -/
structure CrawlResult where
  success : Bool
  markdown : Option MarkdownObj
  url : String
  status_code : Option Int
  title : Option String
  error_message : Option String
deriving DecidableEq

/-- str(e) of the AttributeError raised when result.markdown is None
(Python str of an exception is its message, without the class name). -/
def browserAttrErr : String :=
  "\x27NoneType\x27 object has no attribute \x27raw_markdown\x27"

/-- Browser-strategy per-result formatting: the dict literals at scrape.py
lines 143-151 (stream) and 158-166 (collect-all) are character-identical,
so one function serves both.  There is no per-result try in these branches:
an AttributeError surfaces as an .error that escapes to the outer handler. -/
def normalizeBrowser (r : CrawlResult) : Except String Result :=
  if r.success then
    match r.markdown with
    | none => .error browserAttrErr
    | some m =>
      .ok { success := true, markdown := m.raw_markdown, url := r.url,
            status_code := r.status_code.getD 200, title := r.title.getD "",
            content_length := m.raw_markdown.length, error := none }
  else
    .ok { success := false, markdown := "", url := r.url,
          status_code := r.status_code.getD 200, title := r.title.getD "",
          content_length := 0, error := r.error_message }

/-- Collect results until the first exception, which aborts the collection
(the async-for loop as well as the list comprehension discard the partial
list when an exception is raised mid-way). -/
def mapExcept (f : α → Except ε β) : List α → Except ε (List β)
  | [] => .ok []
  | a :: l =>
    match f a with
    | .error e => .error e
    | .ok b =>
      match mapExcept f l with
      | .error e => .error e
      | .ok bs => .ok (b :: bs)

/-- The two configuration entries batch_crawl_native dispatches on:
strategy = config_options.get with default browser applied at the use site,
stream_mode = truthiness of config_options.get(stream_mode).  All other
entries are forwarded to the library and live in the environment. -/
structure ConfigOptions where
  strategy : Option Json
  stream_mode : Bool

/-- The dispatch test at scrape.py lines 86-88: the strategy entry, with
default the string browser, compared against the string http. -/
def isHttpStrategy (cfg : ConfigOptions) : Bool :=
  match cfg.strategy with
  | some (Json.str s) => s = "http"
  | some _ => false
  | none => false

/-- Library behaviour for one batch call.  setupExc: an exception raised
while building the run config, dispatcher, browser config, or strategy
(lines 44-91), escaping straight to the outer handler.  The three outcome
lists give the per-task results the library would deliver in each branch. -/
structure LibEnv where
  setupExc : Option String
  httpStreamOutcomes : List StreamOutcome
  httpGatherOutcomes : List (Except String HttpResultObj)
  browserResults : List CrawlResult

/-- The per-URL failure dict of the outer except handler
(scrape.py lines 170-183). -/
def batchFail (e : String) (url : String) : Result :=
  { success := false, markdown := "", url := url, status_code := 0,
    title := "", content_length := 0,
    error := some ("Batch crawler exception: " ++ e) }

/-- Body of the outer try of batch_crawl_native (lines 42-168):
.error e means an exception with message e escaped the body. -/
def batch_crawl_inner (urls : List String) (cfg : ConfigOptions) (env : LibEnv) :
    Except String (List Result) :=
  match env.setupExc with
  | some e => .error e
  | none =>
    if isHttpStrategy cfg then
      if cfg.stream_mode then .ok (httpStreamResults urls env.httpStreamOutcomes)
      else .ok (httpGatherResults urls env.httpGatherOutcomes)
    else
      if cfg.stream_mode then mapExcept normalizeBrowser env.browserResults
      else mapExcept normalizeBrowser env.browserResults

/-- batch_crawl_native (scrape.py lines 37-183): the outer except clause
turns any escaped exception into one failed Result per requested URL. -/
def batch_crawl_native (urls : List String) (cfg : ConfigOptions) (env : LibEnv) :
    List Result :=
  match batch_crawl_inner urls cfg env with
  | .ok rs => rs
  | .error e => urls.map (batchFail e)

/-- CrawlResult of the single-URL path as accessed at scrape.py lines
234-249.  There result.markdown is used directly as text (len and dict
value), so it is a String here; title and metadata model hasattr plus
truthiness probing. -/
structure SingleCrawlResult where
  success : Bool
  markdown : String
  url : String
  status_code : Option Int
  title : Option String
  metadata : Option (List (String × String))
  error_message : Option String
deriving DecidableEq

/-- The elif branch of the title fallback chain (lines 238-239). -/
def metaTitle (r : SingleCrawlResult) : String :=
  match r.metadata with
  | some m =>
    if m.isEmpty then ""
    else match m.lookup "title" with
      | some v => v
      | none => ""
  | none => ""

/-- Title fallback chain (scrape.py lines 235-239): direct truthy title
attribute, else metadata title, else the empty string. -/
def extractTitle (r : SingleCrawlResult) : String :=
  match r.title with
  | some t => if t = "" then metaTitle r else t
  | none => metaTitle r

/-- The single-URL result dict (scrape.py lines 241-249). -/
def scrapeNormalize (r : SingleCrawlResult) : Result :=
  { success := r.success
    markdown := if r.success then r.markdown else ""
    url := r.url
    status_code := r.status_code.getD 200
    title := extractTitle r
    content_length := if r.success then r.markdown.length else 0
    error := if r.success then none else r.error_message }

/-- Outcome of the single fetch: a result object, an exception caught by the
except at line 251, or a KeyboardInterrupt (not an Exception subclass, so it
escapes scrape_url and is caught in main at line 382). -/
inductive SingleOutcome where
  | ok : SingleCrawlResult → SingleOutcome
  | exc : String → SingleOutcome
  | interrupt : SingleOutcome

/-- scrape_url (scrape.py lines 185-260).  none = KeyboardInterrupt
propagates to main.  The config overrides at lines 220-228 are forwarded
into the library call, whose behaviour the outcome models. -/
def scrape_url (url : String) (config : Option Json) (out : SingleOutcome) :
    Option Result :=
  match config, out with
  | _, .ok r => some (scrapeNormalize r)
  | _, .exc m => some
      { success := false, markdown := "", url := url, status_code := 0,
        title := "", content_length := 0, error := some ("Crawler exception: " ++ m) }
  | _, .interrupt => none

/-- What one process invocation observably does: the single JSON document
written to stdout, the exit code, and whether the library crawl call site
(asyncio.run at line 326 or 380) was reached. -/
structure ProcResult where
  stdout : Json
  exitCode : Nat
  fetched : Bool

/-- Process environment: whether the crawl4ai import fails (with the
ImportError message), the behaviour of json.loads, and the library
behaviour for the single and batch call sites. -/
structure Env where
  importError : Option String
  loads : String → Except String Json
  singleOutcome : SingleOutcome
  libEnv : LibEnv

/-- Usage error object (scrape.py lines 279-283). -/
def usageObj : Json :=
  Json.obj [("success", Json.bool false),
    ("error", Json.str "Usage: python3 scrape.py <url> [config_json] OR python3 scrape.py --native-batch-crawl --urls <urls_json> --config <config_json>"),
    ("help", Json.str "Single URL: python3.11 scrape.py https://example.com\nBatch: python3 scrape.py --native-batch-crawl --urls \x27[\"url1\", \"url2\"]\x27 --config \x27\x7b\"strategy\": \"browser\"\x7d\x27")]

/-- Batch usage error object (scrape.py lines 290-294). -/
def batchUsageObj : Json :=
  Json.obj [("success", Json.bool false),
    ("error", Json.str "Native batch mode requires: --native-batch-crawl --urls <urls_json> --config <config_json>"),
    ("help", Json.str "Example: python3 scrape.py --native-batch-crawl --urls \x27[\"https://example.com\", \"https://google.com\"]\x27 --config \x27\x7b\"strategy\": \"browser\", \"stream_mode\": false\x7d\x27")]

/-- Empty or non-list URLs object (scrape.py lines 307-311). -/
def emptyUrlsObj : Json :=
  Json.obj [("success", Json.bool false),
    ("error", Json.str "URLs must be a non-empty list"),
    ("help", Json.str "Example: \x27[\"https://example.com\", \"https://google.com\"]\x27")]

/-- Per-URL batch validation failure object (scrape.py lines 318-322). -/
def invalidBatchUrlObj (u : String) (msg : String) (items : List Json) : Json :=
  Json.obj [("success", Json.bool false),
    ("error", Json.str ("Invalid URL \x27" ++ u ++ "\x27: " ++ msg)),
    ("urls", Json.arr items)]

/-- The except ValueError object (scrape.py lines 330-334). -/
def batchValueErrObj (m : String) : Json :=
  Json.obj [("success", Json.bool false),
    ("error", Json.str ("Invalid arguments: " ++ m)),
    ("help", Json.str "Check --urls and --config JSON format")]

/-- The except json.JSONDecodeError object (scrape.py lines 337-341). -/
def batchJsonErrObj (m : String) : Json :=
  Json.obj [("success", Json.bool false),
    ("error", Json.str ("Invalid JSON: " ++ m)),
    ("help", Json.str "Ensure URLs and config are valid JSON")]

/-- The except Exception object (scrape.py lines 344-348): urls appears when
bound in locals, else the empty list. -/
def batchOtherObj (m : String) (urlsInScope : Option Json) : Json :=
  Json.obj [("success", Json.bool false),
    ("error", Json.str ("Batch crawling error: " ++ m)),
    ("urls", urlsInScope.getD (Json.arr []))]

/-- Python exceptions relevant to the batch except chain. -/
inductive PyExc where
  | jsonDecodeError : String → PyExc
  | valueError : String → PyExc
  | other : String → PyExc

def pyExcMsg : PyExc → String
  | .jsonDecodeError m => m
  | .valueError m => m
  | .other m => m

/-- Python issubclass test against ValueError: json.JSONDecodeError is a
subclass of ValueError, so it matches an except ValueError clause. -/
def isValueError : PyExc → Bool
  | .jsonDecodeError _ => true
  | .valueError _ => true
  | .other _ => false

def isJsonDecodeError : PyExc → Bool
  | .jsonDecodeError _ => true
  | _ => false

/-- The except chain of the batch try (scrape.py lines 329-349), in source
order: except ValueError first, except json.JSONDecodeError second, except
Exception last.  Because JSONDecodeError subclasses ValueError, the first
clause already captures every decode failure and the second is dead. -/
def batchExcResult (e : PyExc) (urlsInScope : Option Json) : ProcResult :=
  if isValueError e then ⟨batchValueErrObj (pyExcMsg e), 1, false⟩
  else if isJsonDecodeError e then ⟨batchJsonErrObj (pyExcMsg e), 1, false⟩
  else ⟨batchOtherObj (pyExcMsg e) urlsInScope, 1, false⟩

/-- The URL validation loop (scrape.py lines 314-323) over the parsed JSON
items, in order; on success it yields the list of (necessarily string)
URLs.  A falsy element fails validate_url with the empty-URL message; a
truthy non-string raises AttributeError at url.startswith, reaching the
except Exception clause. -/
def checkUrls (allItems : List Json) : List Json → Except ProcResult (List String)
  | [] => .ok []
  | j :: rest =>
    if !jsonTruthy j then
      .error ⟨invalidBatchUrlObj (jsonFStr j) "URL cannot be empty" allItems, 1, false⟩
    else
      match j with
      | .str s =>
        match validate_url s with
        | (true, _) =>
          match checkUrls allItems rest with
          | .ok tail => .ok (s :: tail)
          | .error r => .error r
        | (false, msg) => .error ⟨invalidBatchUrlObj s msg allItems, 1, false⟩
      | _ =>
        .error (batchExcResult
          (PyExc.other ("\x27" ++ jsonTypeName j ++
            "\x27 object has no attribute \x27startswith\x27"))
          (some (Json.arr allItems)))

/-- Assemble ConfigOptions from the parsed config JSON.  A non-dict value
would raise inside batch_crawl_native (where the outer handler catches it,
modelled by LibEnv.setupExc); the dispatch entries default as in the code. -/
def buildConfig (j : Json) : ConfigOptions :=
  match j with
  | .obj fs =>
    ⟨fs.lookup "strategy",
     match fs.lookup "stream_mode" with
     | some v => jsonTruthy v
     | none => false⟩
  | _ => ⟨none, false⟩

/-- Native batch mode (scrape.py lines 287-349): flag check, positional
extraction of the two JSON strings, parsing, list and per-URL validation,
then the batch call and the JSON array print (exit 0). -/
def runBatchMode (env : Env) (argv : List String) : ProcResult :=
  if argv.length < 6 || !(argv.contains "--urls") || !(argv.contains "--config") then
    ⟨batchUsageObj, 1, false⟩
  else
    match argv.get? (argv.indexOf "--urls" + 1) with
    | none => batchExcResult (PyExc.other "list index out of range") none
    | some urlsRaw =>
      match env.loads urlsRaw with
      | .error m => batchExcResult (PyExc.jsonDecodeError m) none
      | .ok urlsJson =>
        match argv.get? (argv.indexOf "--config" + 1) with
        | none => batchExcResult (PyExc.other "list index out of range") (some urlsJson)
        | some cfgRaw =>
          match env.loads cfgRaw with
          | .error m => batchExcResult (PyExc.jsonDecodeError m) (some urlsJson)
          | .ok cfgJson =>
            match urlsJson with
            | Json.arr items =>
              if items.isEmpty then ⟨emptyUrlsObj, 1, false⟩
              else
                match checkUrls items items with
                | .error r => r
                | .ok strUrls =>
                  ⟨Json.arr ((batch_crawl_native strUrls (buildConfig cfgJson)
                      env.libEnv).map resultToJson), 0, true⟩
            | _ => ⟨emptyUrlsObj, 1, false⟩

/-- Invalid single URL object (scrape.py lines 359-363). -/
def invalidUrlObj (msg url : String) : Json :=
  Json.obj [("success", Json.bool false),
    ("error", Json.str ("Invalid URL: " ++ msg)), ("url", Json.str url)]

/-- Invalid single-mode JSON config object (scrape.py lines 371-375). -/
def jsonCfgErrObj (m url : String) : Json :=
  Json.obj [("success", Json.bool false),
    ("error", Json.str ("Invalid JSON config: " ++ m)), ("url", Json.str url)]

/-- KeyboardInterrupt object (scrape.py lines 383-387). -/
def interruptObj (url : String) : Json :=
  Json.obj [("success", Json.bool false),
    ("error", Json.str "Scraping interrupted by user"), ("url", Json.str url)]

/-- Single-URL mode after stripping (scrape.py lines 356-395): validation
short-circuits before any config parsing or fetch; a parsed (or absent)
config then reaches the fetch, whose printed Result exits 0. -/
def singleCore (env : Env) (url : String) (cfgArg : Option String) : ProcResult :=
  match validate_url url with
  | (false, msg) => ⟨invalidUrlObj msg url, 1, false⟩
  | (true, _) =>
    match cfgArg with
    | none =>
      match scrape_url url none env.singleOutcome with
      | some r => ⟨resultToJson r, 0, true⟩
      | none => ⟨interruptObj url, 1, true⟩
    | some s =>
      match env.loads s with
      | .error m => ⟨jsonCfgErrObj m url, 1, false⟩
      | .ok c =>
        match scrape_url url (some c) env.singleOutcome with
        | some r => ⟨resultToJson r, 0, true⟩
        | none => ⟨interruptObj url, 1, true⟩

/-- Single-URL mode (scrape.py lines 351-395): url = sys.argv[1].strip(),
config from sys.argv[2] only when more than two arguments are present. -/
def runSingleMode (env : Env) (argv : List String) : ProcResult :=
  singleCore env (pyStrip (argv.getD 1 ""))
    (if 2 < argv.length then argv.get? 2 else none)

/-- The main function of scrape.py (lines 276-395): usage check, then
dispatch on the literal batch flag at sys.argv[1].  Named mainFn because
Lean reserves the name main for executable entry points. -/
def mainFn (env : Env) (argv : List String) : ProcResult :=
  if argv.length < 2 then ⟨usageObj, 1, false⟩
  else if argv.getD 1 "" = "--native-batch-crawl" then runBatchMode env argv
  else runSingleMode env argv

/-- The module import guard object (scrape.py lines 28-34). -/
def importGuardObj (m : String) (firstArg : String) : Json :=
  Json.obj [("success", Json.bool false),
    ("error", Json.str ("Crawl4AI not installed: " ++ m ++
      ". Run: pip install crawl4ai && crawl4ai-setup")),
    ("url", Json.str firstArg), ("status_code", Json.num 0),
    ("markdown", Json.str "")]

/-- Whole process (scrape.py lines 21-35 then 397-398): when the crawl4ai
module fails to load, the guard object is printed and the process exits 1
before main runs. -/
def runProcess (env : Env) (argv : List String) : ProcResult :=
  match env.importError with
  | some m => ⟨importGuardObj m (argv.getD 1 ""), 1, false⟩
  | none => mainFn env argv

/-- The invariant of spec section 3: error implies empty content. -/
def errImpliesEmpty (r : Result) : Prop := r.error ≠ none → r.markdown = ""

/-- The invariant of spec section 4.5: content_length equals the length of
the returned content field. -/
def clConsistent (r : Result) : Prop := r.content_length = r.markdown.length

/-- An HTTP response object that reports an error exposes no html
attribute. -/
def httpObjClean (r : HttpResultObj) : Prop :=
  r.error_message ≠ none → r.html = none

/- Concrete environments used by witnesses and counterexamples. -/

def emptyLibEnv : LibEnv := ⟨none, [], [], []⟩

/-- A concrete stand-in for json.loads covering the strings the witnesses
feed it; every other string is a decode failure. -/
def stubLoads : String → Except String Json := fun s =>
  if s = "\x7b\x7d" then .ok (Json.obj [])
  else if s = "[\" https://example.com\"]" then
    .ok (Json.arr [Json.str " https://example.com"])
  else .error "Expecting value: line 1 column 1 (char 0)"

def sampleSingleResult : SingleCrawlResult :=
  ⟨true, "# Example\n\nBody text", "https://example.com", some 200,
   some "Example", none, none⟩

def stubEnv : Env := ⟨none, stubLoads, SingleOutcome.ok sampleSingleResult, emptyLibEnv⟩

def cfgHttpStream : ConfigOptions := ⟨some (Json.str "http"), true⟩

def cfgHttpGather : ConfigOptions := ⟨some (Json.str "http"), false⟩

def cfgBrowser : ConfigOptions := ⟨none, false⟩

/-- HTTP gather outcome whose object carries both html and error_message. -/
def envErrHtml : LibEnv :=
  ⟨none, [], [Except.ok ⟨some false, some "x", none, some 500, none, some "boom"⟩], []⟩

def goodBrowserResult : CrawlResult :=
  ⟨true, some ⟨"A page"⟩, "https://a.example.com", some 200, some "A", none⟩

/-- A successful CrawlResult whose markdown attribute is None: normalizing
it raises AttributeError. -/
def badBrowserResult : CrawlResult :=
  ⟨true, none, "https://b.example.com", some 200, some "B", none⟩

def envBrowserBad : LibEnv := ⟨none, [], [], [goodBrowserResult, badBrowserResult]⟩

def envGoodBrowser : LibEnv := ⟨none, [], [], [goodBrowserResult]⟩

def envSetupFail : LibEnv := ⟨some "Browser executable not found", [], [], []⟩

def envNoLib : Env :=
  ⟨some "No module named \x27crawl4ai\x27", stubLoads, SingleOutcome.interrupt, emptyLibEnv⟩

/-- A well-lengthed environment for the batch size claim: one outcome per
task in every branch, for a one-element URL list. -/
def envOnePer : LibEnv :=
  ⟨none,
   [StreamOutcome.indexExc ⟨some true, some "<p>hi</p>", none, some 200, none, none⟩
      "<coroutine object AsyncHTTPCrawlerStrategy.crawl at 0x7f> is not in list"],
   [Except.ok ⟨some true, some "<p>hi</p>", none, some 200, none, none⟩],
   [goodBrowserResult]⟩

/-! Helper lemmas about the list-shaped delegates. -/

theorem httpStreamResultsAux_length (urls : List String) :
    ∀ (os : List StreamOutcome) (i : Nat),
      (httpStreamResultsAux urls i os).length = os.length := by
  intro os
  induction os with
  | nil => intro i; rfl
  | cons o os ih => intro i; simp [httpStreamResultsAux, ih]

theorem httpStreamResultsAux_get? (urls : List String) :
    ∀ (os : List StreamOutcome) (i k : Nat),
      (httpStreamResultsAux urls i os).get? k =
        (os.get? k).map (fun o => httpStreamStep urls (i + k) o) := by
  intro os
  induction os with
  | nil => intro i k; simp [httpStreamResultsAux]
  | cons o os ih =>
    intro i k
    cases k with
    | zero => simp [httpStreamResultsAux]
    | succ k =>
      show (httpStreamResultsAux urls (i + 1) os).get? k = _
      rw [ih (i + 1) k]
      have h : i + 1 + k = i + (k + 1) := by omega
      rw [h]
      rfl

theorem mem_httpStreamResultsAux (urls : List String) :
    ∀ (os : List StreamOutcome) (i : Nat) (r : Result),
      r ∈ httpStreamResultsAux urls i os →
      ∃ k o, o ∈ os ∧ r = httpStreamStep urls k o := by
  intro os
  induction os with
  | nil => intro i r h; exact absurd h (List.not_mem_nil r)
  | cons o os ih =>
    intro i r h
    rcases List.mem_cons.mp h with h1 | h2
    · exact ⟨i, o, List.mem_cons_self o os, h1⟩
    · rcases ih (i + 1) r h2 with ⟨k, o2, ho, hr⟩
      exact ⟨k, o2, List.mem_cons_of_mem o ho, hr⟩

theorem mapExcept_ok_length {α ε β : Type} {f : α → Except ε β} :
    ∀ {l : List α} {bs : List β}, mapExcept f l = .ok bs → bs.length = l.length := by
  intro l
  induction l with
  | nil =>
    intro bs h
    simp only [mapExcept] at h
    cases h
    rfl
  | cons a l ih =>
    intro bs h
    simp only [mapExcept] at h
    split at h
    · exact Except.noConfusion h
    · split at h
      · exact Except.noConfusion h
      · cases h
        simp [ih ‹mapExcept f l = Except.ok _›]

theorem mapExcept_ok_mem {α ε β : Type} {f : α → Except ε β} :
    ∀ {l : List α} {bs : List β}, mapExcept f l = .ok bs →
      ∀ b ∈ bs, ∃ a, a ∈ l ∧ f a = .ok b := by
  intro l
  induction l with
  | nil =>
    intro bs h b hb
    simp only [mapExcept] at h
    cases h
    exact absurd hb (List.not_mem_nil b)
  | cons a l ih =>
    intro bs h b hb
    simp only [mapExcept] at h
    split at h
    · exact Except.noConfusion h
    · split at h
      · exact Except.noConfusion h
      · cases h
        rcases List.mem_cons.mp hb with h1 | h2
        · exact ⟨a, List.mem_cons_self a l, by rw [‹f a = Except.ok _›, h1]⟩
        · rcases ih ‹mapExcept f l = Except.ok _› b h2 with ⟨a2, ha, hfa⟩
          exact ⟨a2, List.mem_cons_of_mem a ha, hfa⟩

theorem batch_crawl_inner_ok_length (urls : List String) (cfg : ConfigOptions)
    (env : LibEnv) (rs : List Result)
    (hs : env.httpStreamOutcomes.length = urls.length)
    (hg : env.httpGatherOutcomes.length = urls.length)
    (hb : env.browserResults.length = urls.length)
    (h : batch_crawl_inner urls cfg env = .ok rs) :
    rs.length = urls.length := by
  unfold batch_crawl_inner at h
  split at h
  · exact Except.noConfusion h
  · split at h
    · split at h
      · cases h
        rw [httpStreamResults, httpStreamResultsAux_length urls, hs]
      · cases h
        simp [httpGatherResults, hg]
    · split at h
      · rw [mapExcept_ok_length h, hb]
      · rw [mapExcept_ok_length h, hb]

/-- Claim C1: for every non-empty list of N validated URLs, when each branch
of the library delivers one outcome per task (the contract of gather,
as_completed and arun_many), batch_crawl_native returns exactly N Results in
every combination of strategy (browser or http) and delivery mode
(collect-all or stream), and each serialized Result carries a boolean
success field. -/
theorem c1_batch_one_result_per_url (urls : List String) (cfg : ConfigOptions)
    (env : LibEnv) (hne : urls ≠ [])
    (hvalid : ∀ u ∈ urls, (validate_url u).1 = true)
    (hs : env.httpStreamOutcomes.length = urls.length)
    (hg : env.httpGatherOutcomes.length = urls.length)
    (hb : env.browserResults.length = urls.length) :
    (batch_crawl_native urls cfg env).length = urls.length ∧
    ∀ r ∈ batch_crawl_native urls cfg env,
      Json.lookupField (resultToJson r) "success" = some (Json.bool r.success) := by
  constructor
  · unfold batch_crawl_native
    cases h : batch_crawl_inner urls cfg env with
    | error e => simp
    | ok rs => exact batch_crawl_inner_ok_length urls cfg env rs hs hg hb h
  · intro r _
    rfl

theorem c1_witness :
    (["https://example.com"] : List String) ≠ [] ∧
    (batch_crawl_native ["https://example.com"] cfgHttpStream envOnePer).length = 1 :=
  ⟨by decide,
   (c1_batch_one_result_per_url ["https://example.com"] cfgHttpStream envOnePer
      (by decide) (by decide) rfl rfl rfl).1⟩

theorem singleCore_invalid (env : Env) (url : String) (cfgArg : Option String)
    (h : (validate_url url).1 = false) :
    (singleCore env url cfgArg).fetched = false ∧
    (singleCore env url cfgArg).exitCode = 1 := by
  rcases hv : validate_url url with ⟨b, s⟩
  rw [hv] at h
  simp only at h
  subst h
  unfold singleCore
  rw [hv]
  exact ⟨rfl, rfl⟩

/-- Claim C2: validate_url reports a URL valid iff it is non-empty, starts
with http:// or https://, contains a dot, and has length strictly greater
than 10; an invalid URL yields a non-empty error message, and single mode
never reaches the fetch call for it. -/
theorem c2_validate_url_contract (u : String) :
    ((validate_url u).1 = true ↔
      (u.data ≠ [] ∧
        ("http://".data <+: u.data ∨ "https://".data <+: u.data) ∧
        '.' ∈ u.data ∧ 10 < u.data.length)) ∧
    ((validate_url u).1 = false → (validate_url u).2 ≠ "") ∧
    (∀ (env : Env) (cfgArg : Option String), (validate_url u).1 = false →
      (singleCore env u cfgArg).fetched = false) := by
  refine ⟨?_, ?_, fun env cfgArg h => (singleCore_invalid env u cfgArg h).1⟩
  · unfold validate_url strStartsWith strHasChar
    split_ifs with h1 h2 h3
    · rw [List.isEmpty_iff] at h1
      simp [h1]
    · simp only [Bool.not_eq_true', Bool.or_eq_false_iff] at h2
      constructor
      · intro hf; exact absurd hf (by decide)
      · rintro ⟨-, hpre, -, -⟩
        rcases hpre with hp | hp
        · rw [← List.isPrefixOf_iff_prefix, h2.1] at hp
          exact absurd hp (by decide)
        · rw [← List.isPrefixOf_iff_prefix, h2.2] at hp
          exact absurd hp (by decide)
    · simp only [Bool.not_eq_true', Bool.and_eq_false_iff] at h3
      constructor
      · intro hf; exact absurd hf (by decide)
      · rintro ⟨-, -, hdot, hlen⟩
        rcases h3 with h3 | h3
        · have hc : u.data.contains '.' = true := by
            simpa [List.contains] using hdot
          rw [hc] at h3
          exact absurd h3 (by decide)
        · rw [decide_eq_false_iff_not] at h3
          exact absurd hlen h3
    · have h2' : ("http://".data.isPrefixOf u.data ||
          "https://".data.isPrefixOf u.data) = true := by
        revert h2
        cases ("http://".data.isPrefixOf u.data || "https://".data.isPrefixOf u.data) <;>
          simp
      have h3' : (u.data.contains '.' && decide (10 < u.data.length)) = true := by
        revert h3
        cases (u.data.contains '.' && decide (10 < u.data.length)) <;> simp
      have hne : u.data ≠ [] := by
        intro hnil
        exact h1 (by simp [hnil])
      rw [Bool.or_eq_true] at h2'
      rw [Bool.and_eq_true] at h3'
      constructor
      · intro _
        refine ⟨hne, ?_, ?_, ?_⟩
        · rcases h2' with hp | hp
          · exact Or.inl (Iff.mp List.isPrefixOf_iff_prefix hp)
          · exact Or.inr (Iff.mp List.isPrefixOf_iff_prefix hp)
        · have := h3'.1
          simpa [List.contains] using this
        · exact of_decide_eq_true h3'.2
      · intro _; rfl
  · unfold validate_url
    split_ifs <;> decide

theorem c2_witness :
    (validate_url "not-a-url").2 ≠ "" ∧
    (singleCore stubEnv "not-a-url" none).fetched = false :=
  ⟨(c2_validate_url_contract "not-a-url").2.1 (by decide),
   (c2_validate_url_contract "not-a-url").2.2 stubEnv none (by decide)⟩

/-- Claim C6: when the whole batch call raises at the outermost level of
batch_crawl_native, every requested URL receives a failed Result (success
false, empty markdown, status_code 0) and all of them carry the same shared
error message, so output is still produced. -/
theorem c6_total_failure_shared_error (urls : List String) (cfg : ConfigOptions)
    (env : LibEnv) (e : String) (hne : urls ≠ [])
    (hfail : batch_crawl_inner urls cfg env = .error e) :
    (batch_crawl_native urls cfg env).length = urls.length ∧
    batch_crawl_native urls cfg env ≠ [] ∧
    ∀ r ∈ batch_crawl_native urls cfg env,
      r.success = false ∧ r.markdown = "" ∧ r.status_code = 0 ∧
      r.error = some ("Batch crawler exception: " ++ e) := by
  have hb : batch_crawl_native urls cfg env = urls.map (batchFail e) := by
    unfold batch_crawl_native
    rw [hfail]
  rw [hb]
  refine ⟨by simp, by simp [hne], ?_⟩
  intro r hr
  rcases List.mem_map.mp hr with ⟨u2, -, rfl⟩
  exact ⟨rfl, rfl, rfl, rfl⟩

theorem c6_witness :
    (batch_crawl_native ["https://example.com"] cfgBrowser envSetupFail).length = 1 ∧
    batch_crawl_native ["https://example.com"] cfgBrowser envSetupFail ≠ [] :=
  ⟨(c6_total_failure_shared_error ["https://example.com"] cfgBrowser envSetupFail
      "Browser executable not found" (by decide) rfl).1,
   (c6_total_failure_shared_error ["https://example.com"] cfgBrowser envSetupFail
      "Browser executable not found" (by decide) rfl).2.1⟩

theorem mem_httpGatherResults (urls : List String)
    (os : List (Except String HttpResultObj)) (r : Result)
    (h : r ∈ httpGatherResults urls os) :
    ∃ o u, o ∈ os ∧ r = httpGatherItem o u := by
  rcases List.mem_map.mp h with ⟨⟨o, u⟩, hp, rfl⟩
  exact ⟨o, u, (List.of_mem_zip hp).1, rfl⟩

/-- Every Result of batch_crawl_native arises from one of the four code
paths: the outer exception handler, one HTTP streaming iteration, one HTTP
gather comprehension element, or one browser normalization. -/
theorem mem_batch_cases (urls : List String) (cfg : ConfigOptions) (env : LibEnv)
    (res : Result) (hres : res ∈ batch_crawl_native urls cfg env) :
    (∃ e u, res = batchFail e u) ∨
    (isHttpStrategy cfg = true ∧ cfg.stream_mode = true ∧
      ∃ k o, o ∈ env.httpStreamOutcomes ∧ res = httpStreamStep urls k o) ∨
    (isHttpStrategy cfg = true ∧ cfg.stream_mode = false ∧
      ∃ o u, o ∈ env.httpGatherOutcomes ∧ res = httpGatherItem o u) ∨
    (∃ cr, cr ∈ env.browserResults ∧ normalizeBrowser cr = .ok res) := by
  unfold batch_crawl_native at hres
  rcases hinner : batch_crawl_inner urls cfg env with e | rs
  · rw [hinner] at hres
    rcases List.mem_map.mp hres with ⟨u2, -, rfl⟩
    exact Or.inl ⟨e, u2, rfl⟩
  · rw [hinner] at hres
    unfold batch_crawl_inner at hinner
    split at hinner
    · exact Except.noConfusion hinner
    · split at hinner
      · split at hinner
        · cases hinner
          rcases mem_httpStreamResultsAux urls env.httpStreamOutcomes 0 res hres with
            ⟨k, o, ho, hr⟩
          exact Or.inr (Or.inl ⟨‹_›, ‹_›, k, o, ho, hr⟩)
        · cases hinner
          rcases mem_httpGatherResults urls env.httpGatherOutcomes res hres with
            ⟨o, u, ho, hr⟩
          refine Or.inr (Or.inr (Or.inl ⟨‹_›, ?_, o, u, ho, hr⟩))
          simpa using ‹¬(cfg.stream_mode = true)›
      · split at hinner
        · rcases mapExcept_ok_mem hinner res hres with ⟨cr, hcr, hok⟩
          exact Or.inr (Or.inr (Or.inr ⟨cr, hcr, hok⟩))
        · rcases mapExcept_ok_mem hinner res hres with ⟨cr, hcr, hok⟩
          exact Or.inr (Or.inr (Or.inr ⟨cr, hcr, hok⟩))

/-- Claim C3 (amended): error implies empty markdown holds unconditionally
for every Result of single-URL mode, of the browser-strategy batch modes,
of HTTP streaming mode (whose every Result is the except-path failure,
because the url key expression at line 102 always raises before the
formatted dict completes), and of the exception paths of HTTP collect-all
mode; it fails only for an HTTP collect-all Result normalized from a
library object carrying both an error_message and an html attribute (see
the counterexample), and holds in collect-all mode whenever an object
reporting an error_message exposes no html attribute. -/
theorem c3_amended_error_implies_empty (urls : List String) (cfg : ConfigOptions)
    (env : LibEnv)
    (hclean : isHttpStrategy cfg = true → cfg.stream_mode = false →
      ∀ o ∈ env.httpGatherOutcomes, ∀ r, o = Except.ok r → httpObjClean r) :
    (∀ res ∈ batch_crawl_native urls cfg env, errImpliesEmpty res) ∧
    (∀ (url : String) (c : Option Json) (out : SingleOutcome) (res : Result),
      scrape_url url c out = some res → errImpliesEmpty res) := by
  constructor
  · intro res hres
    rcases mem_batch_cases urls cfg env res hres with
      ⟨e, u2, rfl⟩ | ⟨-, -, k, o, -, rfl⟩ | ⟨hhttp, hgather, o, u2, ho, rfl⟩ |
      ⟨cr, -, hok⟩
    · intro _; rfl
    · intro _; rfl
    · rcases o with m | r
      · intro _; rfl
      · intro herr
        have hcl := hclean hhttp hgather _ ho r rfl
        have herr2 : r.error_message ≠ none := by
          simpa [httpGatherItem] using herr
        simp [httpGatherItem, hcl herr2]
    · unfold normalizeBrowser at hok
      split at hok
      · split at hok
        · exact Except.noConfusion hok
        · cases hok
          intro herr
          exact absurd rfl herr
      · cases hok
        intro _; rfl
  · intro url c out res h
    cases out with
    | ok r =>
      cases h
      cases hsucc : r.success with
      | true => intro herr; simp [scrapeNormalize, hsucc] at herr
      | false => intro _; simp [scrapeNormalize, hsucc]
    | exc m => cases h; intro _; rfl
    | interrupt => exact Option.noConfusion h

theorem c3_counterexample :
    batch_crawl_native ["https://example.com"] cfgHttpGather envErrHtml =
      [⟨false, "x", "https://example.com", 500, "", 1, some "boom"⟩] ∧
    ¬ errImpliesEmpty ⟨false, "x", "https://example.com", 500, "", 1, some "boom"⟩ :=
  ⟨rfl, by unfold errImpliesEmpty; decide⟩

theorem c3_witness :
    errImpliesEmpty ⟨true, "A page", "https://a.example.com", 200, "A", 6, none⟩ :=
  (c3_amended_error_implies_empty ["https://a.example.com"] cfgBrowser envGoodBrowser
    (fun hcontra => absurd hcontra (by decide))).1
    ⟨true, "A page", "https://a.example.com", 200, "A", 6, none⟩ (by decide)

/-- Claim C4: for every Result produced by a reachable normalizer path in
any mode (single-URL, batch browser, batch HTTP, streaming or collect-all,
exception paths included), content_length equals the length of the markdown
field: each reachable branch derives both fields from the same gated
expression, and in HTTP streaming mode every Result is the except-path
failure with empty markdown and content_length 0, since the formatted dict
at lines 99-107 never completes. -/
theorem c4_content_length_consistent (urls : List String) (cfg : ConfigOptions)
    (env : LibEnv) :
    (∀ res ∈ batch_crawl_native urls cfg env, clConsistent res) ∧
    (∀ (url : String) (c : Option Json) (out : SingleOutcome) (res : Result),
      scrape_url url c out = some res → clConsistent res) := by
  constructor
  · intro res hres
    rcases mem_batch_cases urls cfg env res hres with
      ⟨e, u2, rfl⟩ | ⟨-, -, k, o, -, rfl⟩ | ⟨-, -, o, u2, -, rfl⟩ |
      ⟨cr, -, hok⟩
    · rfl
    · rfl
    · rcases o with m | r
      · rfl
      · rcases hr : r.html with - | h2
        · simp [clConsistent, httpGatherItem, hr]
        · simp [clConsistent, httpGatherItem, hr]
    · unfold normalizeBrowser at hok
      split at hok
      · split at hok
        · exact Except.noConfusion hok
        · cases hok; rfl
      · cases hok; rfl
  · intro url c out res h
    cases out with
    | ok r =>
      cases h
      cases hsucc : r.success with
      | true => simp [clConsistent, scrapeNormalize, hsucc]
      | false => simp [clConsistent, scrapeNormalize, hsucc]
    | exc m => cases h; rfl
    | interrupt => exact Option.noConfusion h

theorem c4_witness :
    clConsistent ⟨false, "x", "https://example.com", 500, "", 1, some "boom"⟩ :=
  (c4_content_length_consistent ["https://example.com"] cfgHttpGather envErrHtml).1
    ⟨false, "x", "https://example.com", 500, "", 1, some "boom"⟩ (by decide)

theorem zip_get?_bind {α β : Type} :
    ∀ (l1 : List α) (l2 : List β) (i : Nat),
      (l1.zip l2).get? i =
        (l1.get? i).bind (fun a => (l2.get? i).map (fun b => (a, b))) := by
  intro l1
  induction l1 with
  | nil => intro l2 i; simp
  | cons a l1 ih =>
    intro l2 i
    cases l2 with
    | nil => simp
    | cons b l2 =>
      cases i with
      | zero => simp
      | succ i => simpa using ih l2 i

theorem c7_counterexample :
    normalizeBrowser goodBrowserResult =
      Except.ok ⟨true, "A page", "https://a.example.com", 200, "A", 6, none⟩ ∧
    batch_crawl_native ["https://a.example.com", "https://b.example.com"] cfgBrowser
        envBrowserBad =
      [batchFail browserAttrErr "https://a.example.com",
       batchFail browserAttrErr "https://b.example.com"] ∧
    (batchFail browserAttrErr "https://a.example.com").success = false :=
  ⟨rfl, rfl, rfl⟩

/-- Claim C7 (amended): in the HTTP strategy both delivery modes isolate a
per-URL exception to that position: the k-th output Result is a function of
the k-th outcome alone (and the URL list), an exception outcome producing
the failed Result for exactly that slot, and the batch still produces its
output list.  In the browser strategy the claim fails: an exception while
normalizing one URL result escapes to the outer handler, which replaces
every Result with the shared batch failure (see the counterexample). -/
theorem c7_amended_per_url_isolation (urls : List String) (cfg : ConfigOptions)
    (env : LibEnv) :
    (∀ (os : List StreamOutcome) (k : Nat),
      (httpStreamResults urls os).get? k =
        (os.get? k).map (fun o => httpStreamStep urls k o)) ∧
    (∀ (os : List StreamOutcome) (k : Nat) (m : String),
      os.get? k = some (StreamOutcome.awaitExc m) →
      (httpStreamResults urls os).get? k =
        some ⟨false, "", urls.getD k "", 0, "", 0,
          some ("HTTP strategy error: " ++ m)⟩) ∧
    (∀ (os : List (Except String HttpResultObj)) (k : Nat),
      (httpGatherResults urls os).get? k =
        (os.get? k).bind (fun o => (urls.get? k).map (fun u => httpGatherItem o u))) ∧
    (∀ e, env.setupExc = none → isHttpStrategy cfg = false →
      mapExcept normalizeBrowser env.browserResults = .error e →
      batch_crawl_native urls cfg env = urls.map (batchFail e)) := by
  refine ⟨?_, ?_, ?_, ?_⟩
  · intro os k
    have h := httpStreamResultsAux_get? urls os 0 k
    simpa [httpStreamResults, Nat.zero_add] using h
  · intro os k m h
    rw [httpStreamResults, httpStreamResultsAux_get? urls os 0 k, h]
    simp [Nat.zero_add, httpStreamStep, streamExcMsg]
  · intro os k
    unfold httpGatherResults
    rw [List.get?_map, zip_get?_bind]
    cases os.get? k <;> cases urls.get? k <;> simp
  · intro e hsetup hstrat hmap
    unfold batch_crawl_native batch_crawl_inner
    rw [hsetup]
    cases hsm : cfg.stream_mode <;> simp [hstrat, hsm, hmap]

theorem c7_witness :
    (httpStreamResults ["https://example.com"] [StreamOutcome.awaitExc "boom"]).get? 0 =
      some ⟨false, "", "https://example.com", 0, "", 0,
        some "HTTP strategy error: boom"⟩ :=
  (c7_amended_per_url_isolation ["https://example.com"] cfgHttpStream emptyLibEnv).2.1
    [StreamOutcome.awaitExc "boom"] 0 "boom" rfl

/-! Lemmas about str.strip. -/

theorem dropWhile_append_split (p : Char → Bool) :
    ∀ (a b : List Char),
      List.dropWhile p (a ++ b) =
        if a.all p then List.dropWhile p b else List.dropWhile p a ++ b := by
  intro a
  induction a with
  | nil => intro b; simp
  | cons x xs ih =>
    intro b
    by_cases hx : p x
    · by_cases ha : xs.all p <;>
        simp [List.dropWhile_cons, hx, ha, ih b, List.all_cons]
    · simp [List.dropWhile_cons, hx, List.all_cons]

theorem dropWhile_all_nil (p : Char → Bool) :
    ∀ (a : List Char), a.all p = true → List.dropWhile p a = [] := by
  intro a
  induction a with
  | nil => intro _; rfl
  | cons x xs ih =>
    intro h
    rw [List.all_cons, Bool.and_eq_true] at h
    simp [List.dropWhile_cons, h.1, ih h.2]

theorem pyStripList_pad (w1 u w2 : List Char)
    (h1 : w1.all isPyWs = true) (h2 : w2.all isPyWs = true) :
    pyStripList (w1 ++ u ++ w2) = pyStripList u := by
  unfold pyStripList
  rw [List.append_assoc, dropWhile_append_split isPyWs w1 (u ++ w2), if_pos h1,
    dropWhile_append_split isPyWs u w2]
  by_cases hu : u.all isPyWs
  · rw [if_pos hu, dropWhile_all_nil isPyWs w2 h2, dropWhile_all_nil isPyWs u hu]
  · rw [if_neg hu, List.reverse_append,
      dropWhile_append_split isPyWs w2.reverse (List.dropWhile isPyWs u).reverse,
      if_pos (by simpa using h2)]

theorem str_data_append (s t : String) : (s ++ t).data = s.data ++ t.data := by
  cases s; cases t; rfl

theorem pyStrip_pad (w1 u w2 : String)
    (h1 : w1.data.all isPyWs = true) (h2 : w2.data.all isPyWs = true) :
    pyStrip (w1 ++ u ++ w2) = pyStrip u := by
  unfold pyStrip
  rw [str_data_append, str_data_append]
  exact congrArg String.mk (pyStripList_pad w1.data u.data w2.data h1 h2)

/-- Claim C9: in single-URL mode the URL argument is stripped of leading and
trailing whitespace before validation and fetching, so padding the argument
with whitespace does not change the outcome; batch mode applies no
stripping, so a whitespace-padded URL that single mode fetches is rejected
by the batch validation loop. -/
theorem c9_single_strip_batch_no_strip :
    (∀ (env : Env) (p u : String) (rest : List String) (w1 w2 : String),
      w1.data.all isPyWs = true → w2.data.all isPyWs = true →
      runSingleMode env (p :: (w1 ++ u ++ w2) :: rest) =
        runSingleMode env (p :: u :: rest)) ∧
    mainFn stubEnv ["scrape.py", "--native-batch-crawl", "--urls",
        "[\" https://example.com\"]", "--config", "\x7b\x7d"] =
      ⟨invalidBatchUrlObj " https://example.com"
        "URL must start with http:// or https://" [Json.str " https://example.com"],
       1, false⟩ ∧
    (mainFn stubEnv ["scrape.py", " https://example.com"]).fetched = true := by
  refine ⟨?_, rfl, rfl⟩
  intro env p u rest w1 w2 h1 h2
  unfold runSingleMode
  rw [show ((p :: (w1 ++ u ++ w2) :: rest).getD 1 "") = w1 ++ u ++ w2 from rfl,
    show ((p :: u :: rest).getD 1 "") = u from rfl,
    pyStrip_pad w1 u w2 h1 h2]
  exact rfl

theorem c9_witness :
    runSingleMode stubEnv ["scrape.py", "  " ++ "https://example.com" ++ "\t"] =
      runSingleMode stubEnv ["scrape.py", "https://example.com"] :=
  c9_single_strip_batch_no_strip.1 stubEnv "scrape.py" "https://example.com" []
    "  " "\t" (by decide) (by decide)

/-- Claim C8: with the single argument not-a-url and the library importable,
the process prints exactly the invalid-URL JSON object (success false, the
startswith error message, the url echoed) and exits 1. -/
theorem c8_not_a_url (env : Env) (h : env.importError = none) :
    runProcess env ["scrape.py", "not-a-url"] =
      ⟨Json.obj [("success", Json.bool false),
        ("error", Json.str "Invalid URL: URL must start with http:// or https://"),
        ("url", Json.str "not-a-url")], 1, false⟩ := by
  unfold runProcess
  rw [h]
  exact rfl

theorem c8_witness :
    runProcess stubEnv ["scrape.py", "not-a-url"] =
      ⟨Json.obj [("success", Json.bool false),
        ("error", Json.str "Invalid URL: URL must start with http:// or https://"),
        ("url", Json.str "not-a-url")], 1, false⟩ :=
  c8_not_a_url stubEnv rfl

/-- Claim C10: whenever the crawl4ai import fails, for every argument list
the process prints the single import-guard JSON object (success false, an
error embedding the ImportError message, url the first argument or empty
when absent, status_code 0, empty markdown) and exits 1 with no mode
dispatch and no fetch. -/
theorem c10_import_guard (env : Env) (argv : List String) (m : String)
    (h : env.importError = some m) :
    runProcess env argv = ⟨importGuardObj m (argv.getD 1 ""), 1, false⟩ := by
  unfold runProcess
  rw [h]

theorem c10_witness :
    runProcess envNoLib ["scrape.py", "https://example.com"] =
      ⟨importGuardObj "No module named \x27crawl4ai\x27" "https://example.com",
       1, false⟩ :=
  c10_import_guard envNoLib ["scrape.py", "https://example.com"]
    "No module named \x27crawl4ai\x27" rfl

/-- Claim C5 (code reality at the failing input): a malformed --urls value
in batch mode is caught by the except ValueError clause, because
json.JSONDecodeError subclasses ValueError, so the printed error string is
the Invalid-arguments one and never mentions JSON; the dedicated except
json.JSONDecodeError clause below it is dead.  The single-mode config path
does print the JSON-mentioning message.  Exit code 1 and success false hold
in both paths. -/
theorem c5_batch_malformed_json_lacks_json_mention :
    runProcess stubEnv ["scrape.py", "--native-batch-crawl", "--urls", "[",
        "--config", "\x7b\x7d"] =
      ⟨batchValueErrObj "Expecting value: line 1 column 1 (char 0)", 1, false⟩ ∧
    strMentions ("Invalid arguments: " ++ "Expecting value: line 1 column 1 (char 0)")
      "JSON" = false ∧
    runProcess stubEnv ["scrape.py", "https://example.com", "\x7bbad"] =
      ⟨jsonCfgErrObj "Expecting value: line 1 column 1 (char 0)" "https://example.com",
       1, false⟩ ∧
    strMentions ("Invalid JSON config: " ++ "Expecting value: line 1 column 1 (char 0)")
      "JSON" = true :=
  ⟨rfl, by decide, rfl, by decide⟩
